import Mathlib

/-!
Payment gateway: the idempotent settlement pipeline.

A shallow embedding of the payment repository
(`internal/database/payment_repo.go`), the queue consumer loop
(`internal/rabbitmq/rabbitmq.go`), the worker callback
(`pkg/worker/payment_worker.go`) and the creation handler
(`pkg/handlers/payment_handlers.go`).

Conventions of the embedding

* a `uuid.UUID` is the natural number of its 128 bits, a `time.Time` is a
  natural number of clock ticks, a `float64` amount is carried as an integer
  quantity (amounts are only copied and tested for positivity);
* `PaymentStatus` is a Go string type, so a status is a `String`;
* the relational table is the list of its rows; a transaction that is not
  committed leaves the list as it was;
* whatever the outside world decides for one repository or handler call
  (whether a database operation fails, the clock, the identifier the database
  generates, whether the broker accepts a publish) is collected in an `Env`.
-/

set_option autoImplicit false

namespace Tpay

/-! ## internal/models/payment.go -/

abbrev PaymentStatus := String

def StatusPending : PaymentStatus := "PENDING"
def StatusSuccess : PaymentStatus := "SUCCESS"
def StatusFailed : PaymentStatus := "FAILED"

structure Payment where
  ID : Nat
  Amount : Int
  Currency : String
  Reference : String
  Status : PaymentStatus
  CreatedAt : Nat
  UpdatedAt : Nat
deriving DecidableEq, Repr

structure CreatePaymentRequest where
  Amount : Int
  Currency : String
  Reference : String
deriving DecidableEq, Repr

structure CreatePaymentResponse where
  ID : Nat
  Status : PaymentStatus
deriving DecidableEq, Repr

structure ProcessPaymentMessage where
  PaymentID : Nat
deriving DecidableEq, Repr

/-! ## The store and the generated query layer -/

/-- The `payments` table: one entry per row. -/
abbrev Store := List Payment

/-- The stored record identified by `id`, if the table holds one. -/
def stored (s : Store) (id : Nat) : Option Payment :=
  s.find? (fun p => p.ID == id)

/-- What the environment decides for one call into the repository or the
handler: which database operations fail, the database clock, the identifier
the database generates for an inserted row, and whether the broker accepts a
publish. -/
structure Env where
  beginFails : Bool
  readFails : Bool
  updateFails : Bool
  commitFails : Bool
  insertFails : Bool
  publishFails : Bool
  now : Nat
  freshID : Nat
deriving DecidableEq, Repr

/-- An environment in which every operation succeeds. -/
def Env.healthy (now freshID : Nat) : Env :=
  { beginFails := false, readFails := false, updateFails := false,
    commitFails := false, insertFails := false, publishFails := false,
    now := now, freshID := freshID }

/-- Some operation of the unit of work (begin, read, update or commit) fails. -/
def Env.txFails (e : Env) : Bool :=
  e.beginFails || e.readFails || e.updateFails || e.commitFails

/-- Errors of the query layer: `sql.ErrNoRows` or any other driver error. -/
inductive SqlError where
  | ErrNoRows
  | driver
deriving DecidableEq, Repr

/-- Errors returned by the repository: `errors.New("payment not found")` and
the wrapped errors, one constructor per `fmt.Errorf` message. -/
inductive RepoError where
  | paymentNotFound
  | failedToCreatePayment (cause : SqlError)
  | failedToGetPayment (cause : SqlError)
  | failedToGetPaymentByReference (cause : SqlError)
  | failedToBeginTransaction (cause : SqlError)
  | failedToGetPaymentForProcessing (cause : SqlError)
  | failedToUpdatePaymentStatus (cause : SqlError)
  | failedToCommitTransaction (cause : SqlError)
deriving DecidableEq, Repr

instance instDecidableEqExcept {ε α : Type} [DecidableEq ε] [DecidableEq α] :
    DecidableEq (Except ε α)
  | .ok a, .ok b =>
    if h : a = b then isTrue (congrArg Except.ok h)
    else isFalse (fun h' => h (Except.ok.inj h'))
  | .error a, .error b =>
    if h : a = b then isTrue (congrArg Except.error h)
    else isFalse (fun h' => h (Except.error.inj h'))
  | .ok _, .error _ => isFalse (fun h => Except.noConfusion h)
  | .error _, .ok _ => isFalse (fun h => Except.noConfusion h)

/-- The rewrite a status update applies to a row: the row identified by `id`
gets the new status and the clock value as last-update timestamp, any other
row is kept. -/
def setStatus (status : String) (id now : Nat) (p : Payment) : Payment :=
  if p.ID == id then { p with Status := status, UpdatedAt := now } else p

namespace Queries

/-- Modelled from the spec: the generated query `GetPaymentByID` is not part of
the sources. The table is keyed by payment identifier; the query yields the row
with that identifier and `sql.ErrNoRows` when there is none. -/
def GetPaymentByID (e : Env) (s : Store) (id : Nat) : Except SqlError Payment :=
  if e.readFails then .error .driver
  else match s.find? (fun p => p.ID == id) with
    | some p => .ok p
    | none => .error .ErrNoRows

/-- Modelled from the spec: the generated query `GetPaymentByReference` is not
part of the sources. It yields the row with that reference and
`sql.ErrNoRows` when there is none. -/
def GetPaymentByReference (e : Env) (s : Store) (reference : String) :
    Except SqlError Payment :=
  if e.readFails then .error .driver
  else match s.find? (fun p => p.Reference == reference) with
    | some p => .ok p
    | none => .error .ErrNoRows

/-- Modelled from the spec: the generated query `ProcessPaymentIdempotent` is
not part of the sources. Inside the unit of work it reads the current record
identified by `id`, and yields `sql.ErrNoRows` when there is none. -/
def ProcessPaymentIdempotent (e : Env) (s : Store) (id : Nat) :
    Except SqlError Payment :=
  if e.readFails then .error .driver
  else match s.find? (fun p => p.ID == id) with
    | some p => .ok p
    | none => .error .ErrNoRows

/-- Modelled from the spec: the generated query `UpdatePaymentStatus` is not
part of the sources. It writes the status of the record identified by `id`;
every mutation updates the last-update timestamp, and identifier, amount,
currency, reference and creation timestamp are not touched. -/
def UpdatePaymentStatus (e : Env) (s : Store) (status : String) (id : Nat) :
    Except SqlError Store :=
  if e.updateFails then .error .driver
  else .ok (s.map (setStatus status id e.now))

/-- Modelled from the spec: the generated query `CreatePayment` is not part of
the sources. It inserts a row with the given amount, currency, reference and
status, a database-generated identifier and both timestamps set to the
database clock, and returns the row; identifier (the key) and reference are
unique, so the insert fails when either is already present. -/
def CreatePayment (e : Env) (s : Store) (amount : Int) (currency reference status : String) :
    Except SqlError (Store × Payment) :=
  if e.insertFails then .error .driver
  else if s.any (fun p => p.ID == e.freshID || p.Reference == reference) then .error .driver
  else
    let row : Payment :=
      { ID := e.freshID, Amount := amount, Currency := currency, Reference := reference,
        Status := status, CreatedAt := e.now, UpdatedAt := e.now }
    .ok (s ++ [row], row)

end Queries

/-! ## internal/database/payment_repo.go -/

namespace PaymentRepository

/-- The repository method `CreatePayment`: insert with status `PENDING`. -/
def CreatePayment (e : Env) (s : Store) (req : CreatePaymentRequest) :
    Store × Except RepoError Payment :=
  match Queries.CreatePayment e s req.Amount req.Currency req.Reference StatusPending with
  | .error err => (s, .error (.failedToCreatePayment err))
  | .ok (s', sqlcPayment) =>
    (s', .ok { ID := sqlcPayment.ID, Amount := sqlcPayment.Amount,
               Currency := sqlcPayment.Currency, Reference := sqlcPayment.Reference,
               Status := sqlcPayment.Status, CreatedAt := sqlcPayment.CreatedAt,
               UpdatedAt := sqlcPayment.UpdatedAt })

/-- The repository method `GetPaymentByID`. -/
def GetPaymentByID (e : Env) (s : Store) (id : Nat) : Except RepoError Payment :=
  match Queries.GetPaymentByID e s id with
  | .error err =>
    if err = .ErrNoRows then .error .paymentNotFound
    else .error (.failedToGetPayment err)
  | .ok sqlcPayment =>
    .ok { ID := sqlcPayment.ID, Amount := sqlcPayment.Amount,
          Currency := sqlcPayment.Currency, Reference := sqlcPayment.Reference,
          Status := sqlcPayment.Status, CreatedAt := sqlcPayment.CreatedAt,
          UpdatedAt := sqlcPayment.UpdatedAt }

/-- The repository method `GetPaymentByReference`. -/
def GetPaymentByReference (e : Env) (s : Store) (reference : String) :
    Except RepoError Payment :=
  match Queries.GetPaymentByReference e s reference with
  | .error err =>
    if err = .ErrNoRows then .error .paymentNotFound
    else .error (.failedToGetPaymentByReference err)
  | .ok sqlcPayment =>
    .ok { ID := sqlcPayment.ID, Amount := sqlcPayment.Amount,
          Currency := sqlcPayment.Currency, Reference := sqlcPayment.Reference,
          Status := sqlcPayment.Status, CreatedAt := sqlcPayment.CreatedAt,
          UpdatedAt := sqlcPayment.UpdatedAt }

/-- The repository method `ProcessPaymentIdempotent`. The first component is
the table after the call: the transaction's write reaches it only through a
successful `Commit`, every other exit runs the deferred `Rollback`. -/
def ProcessPaymentIdempotent (e : Env) (s : Store) (paymentID : Nat) :
    Store × Except RepoError Payment :=
  if e.beginFails then (s, .error (.failedToBeginTransaction .driver))
  else
    match Queries.ProcessPaymentIdempotent e s paymentID with
    | .error err =>
      if err = .ErrNoRows then (s, .error .paymentNotFound)
      else (s, .error (.failedToGetPaymentForProcessing err))
    | .ok sqlcPayment =>
      let currentStatus : PaymentStatus := sqlcPayment.Status
      if currentStatus != StatusPending then
        (s, .ok { ID := sqlcPayment.ID, Amount := sqlcPayment.Amount,
                  Currency := sqlcPayment.Currency, Reference := sqlcPayment.Reference,
                  Status := currentStatus, CreatedAt := sqlcPayment.CreatedAt,
                  UpdatedAt := sqlcPayment.UpdatedAt })
      else
        let newStatus := StatusSuccess
        match Queries.UpdatePaymentStatus e s newStatus paymentID with
        | .error err => (s, .error (.failedToUpdatePaymentStatus err))
        | .ok s' =>
          if e.commitFails then (s, .error (.failedToCommitTransaction .driver))
          else
            (s', .ok { ID := sqlcPayment.ID, Amount := sqlcPayment.Amount,
                       Currency := sqlcPayment.Currency, Reference := sqlcPayment.Reference,
                       Status := newStatus, CreatedAt := sqlcPayment.CreatedAt,
                       UpdatedAt := sqlcPayment.UpdatedAt })

end PaymentRepository

/-! ## internal/rabbitmq/rabbitmq.go -/

/-- A delivery handed out by the broker: its tag and its body bytes. -/
structure Delivery where
  DeliveryTag : Nat
  Body : List Nat
deriving DecidableEq, Repr

/-- What the consumer goroutine does, in order: calls of the handler, the
inline delay, and the acknowledgment calls on a delivery. -/
inductive Event where
  | handler (message : ProcessPaymentMessage)
  | Sleep (seconds : Nat)
  | Ack (tag : Nat) (multiple : Bool)
  | Nack (tag : Nat) (multiple requeue : Bool)
deriving DecidableEq, Repr

namespace Client

/-- The body of the `for d := range msgs` loop of `ConsumePaymentProcessing`
for one delivery. `unmarshal` is `json.Unmarshal` into a
`ProcessPaymentMessage` (`none` when it returns an error); the handler is a
state transformer whose second result is its `error` (`none` for `nil`). -/
def consumeDelivery {σ ε : Type} (unmarshal : List Nat → Option ProcessPaymentMessage)
    (handler : σ → ProcessPaymentMessage → σ × Option ε) (st : σ) (d : Delivery) :
    σ × List Event :=
  match unmarshal d.Body with
  | none => (st, [Event.Nack d.DeliveryTag false false])
  | some message =>
    match handler st message with
    | (st', some _) =>
      (st', [Event.handler message, Event.Sleep 5, Event.Nack d.DeliveryTag false true])
    | (st', none) =>
      (st', [Event.handler message, Event.Ack d.DeliveryTag false])

/-- The consumer goroutine of `ConsumePaymentProcessing` run over the
deliveries that arrive on `msgs`, in order. -/
def ConsumePaymentProcessing {σ ε : Type} (unmarshal : List Nat → Option ProcessPaymentMessage)
    (handler : σ → ProcessPaymentMessage → σ × Option ε) : σ → List Delivery → σ × List Event
  | st, [] => (st, [])
  | st, d :: ds =>
    let r := consumeDelivery unmarshal handler st d
    let rest := ConsumePaymentProcessing unmarshal handler r.1 ds
    (rest.1, r.2 ++ rest.2)

/-- The method `PublishPaymentProcessing`: the message for `paymentID` is
appended to the queue unless the broker refuses the publish. -/
def PublishPaymentProcessing (e : Env) (q : List ProcessPaymentMessage) (paymentID : Nat) :
    List ProcessPaymentMessage × Bool :=
  if e.publishFails then (q, false) else (q ++ [{ PaymentID := paymentID }], true)

end Client

/-! ## pkg/worker/payment_worker.go -/

/-- The state the worker acts on: the table, and the number of repository
calls made so far, which selects the environment of the next call. -/
structure World where
  store : Store
  tick : Nat
deriving DecidableEq, Repr

namespace PaymentWorker

/-- The callback `processPayment`: settle `message.PaymentID` and return the
repository's error unchanged. -/
def processPayment (env : Nat → Env) (w : World) (message : ProcessPaymentMessage) :
    World × Option RepoError :=
  match PaymentRepository.ProcessPaymentIdempotent (env w.tick) w.store message.PaymentID with
  | (s', .error err) => ({ store := s', tick := w.tick + 1 }, some err)
  | (s', .ok _) => ({ store := s', tick := w.tick + 1 }, none)

/-- The method `Start`: the consumer loop with `processPayment` as handler. -/
def Start (unmarshal : List Nat → Option ProcessPaymentMessage) (env : Nat → Env)
    (w : World) (msgs : List Delivery) : World × List Event :=
  Client.ConsumePaymentProcessing unmarshal (processPayment env) w msgs

end PaymentWorker

/-! ## pkg/handlers/payment_handlers.go -/

/-- The JSON body of a response of `CreatePayment`. -/
inductive ResponseBody where
  | error (message : String)
  | created (response : CreatePaymentResponse)
deriving DecidableEq, Repr

structure Response where
  code : Nat
  body : ResponseBody
deriving DecidableEq, Repr

def StatusCreated : Nat := 201
def StatusBadRequest : Nat := 400
def StatusConflict : Nat := 409
def StatusInternalServerError : Nat := 500

namespace PaymentHandler

/-- The `validate` tags of `CreatePaymentRequest`: `required,gt=0` on the
amount, `required,oneof=ETB USD` on the currency, `required,max=255` on the
reference. -/
def validate (req : CreatePaymentRequest) : Bool :=
  decide (0 < req.Amount) &&
  (req.Currency == "ETB" || req.Currency == "USD") &&
  (req.Reference != "" && decide (req.Reference.length ≤ 255))

/-- The handler `CreatePayment`. `bound` is the outcome of `c.Bind(req)`
(`none` when it returns an error); the results are the table, the queue and
the response written. Of a response body the status code and the `error`
text (or the created payment) are kept; the `details` entry of the validation
failure, the validator's message, is not. -/
def CreatePayment (e : Env) (s : Store) (q : List ProcessPaymentMessage)
    (bound : Option CreatePaymentRequest) : Store × List ProcessPaymentMessage × Response :=
  match bound with
  | none => (s, q, { code := StatusBadRequest, body := .error "Invalid request body" })
  | some req =>
    if !validate req then
      (s, q, { code := StatusBadRequest, body := .error "Validation failed" })
    else
      match PaymentRepository.GetPaymentByReference e s req.Reference with
      | .ok _ =>
        (s, q, { code := StatusConflict,
                 body := .error "Payment with this reference already exists" })
      | .error _ =>
        match PaymentRepository.CreatePayment e s req with
        | (s', .error _) =>
          (s', q, { code := StatusInternalServerError, body := .error "Failed to create payment" })
        | (s', .ok payment) =>
          let q' := (Client.PublishPaymentProcessing e q payment.ID).1
          (s', q', { code := StatusCreated,
                     body := .created { ID := payment.ID, Status := payment.Status } })

end PaymentHandler

/-! ## Repeated settlement -/

/-- Settle the same identifier `n` times, one call after the other, the
`k`-th call under environment `env k`; returns the table after the last call
and the results of the calls in order. -/
def settleTimes (env : Nat → Env) (id : Nat) : Nat → Nat → Store → Store × List (Except RepoError Payment)
  | 0, _, s => (s, [])
  | n + 1, k, s =>
    let r := PaymentRepository.ProcessPaymentIdempotent (env k) s id
    let rest := settleTimes env id n (k + 1) r.1
    (rest.1, r.2 :: rest.2)

/-! ## Sample data -/

/-- Scenario A's payment as created: pending, both timestamps at tick 10. -/
def order42 : Payment :=
  { ID := 1, Amount := 100, Currency := "USD", Reference := "order-42",
    Status := "PENDING", CreatedAt := 10, UpdatedAt := 10 }

/-- A payment that was settled at tick 15. -/
def order7 : Payment :=
  { ID := 2, Amount := 250, Currency := "ETB", Reference := "order-7",
    Status := "SUCCESS", CreatedAt := 5, UpdatedAt := 15 }

/-- A payment in the other terminal status. -/
def order9 : Payment :=
  { ID := 3, Amount := 30, Currency := "USD", Reference := "order-9",
    Status := "FAILED", CreatedAt := 6, UpdatedAt := 16 }

/-- A table holding the three sample payments. -/
def sampleStore : Store := [order42, order7, order9]

/-- A decoder that accepts the one-byte body `[n]` as the instruction for
payment `n` and rejects every other body. -/
def sampleUnmarshal : List Nat → Option ProcessPaymentMessage
  | [n] => some { PaymentID := n }
  | _ => none

/-- A delivery of the instruction for payment 1 (`order42`), with tag `tag`. -/
def deliveryFor1 (tag : Nat) : Delivery := { DeliveryTag := tag, Body := [1] }

/-- A delivery of the instruction for payment 2 (`order7`), with tag `tag`. -/
def deliveryFor2 (tag : Nat) : Delivery := { DeliveryTag := tag, Body := [2] }

/-- A delivery of the instruction for payment 9, which has no record. -/
def deliveryFor9 (tag : Nat) : Delivery := { DeliveryTag := tag, Body := [9] }

/-- A delivery whose body `sampleUnmarshal` rejects. -/
def malformedDelivery (tag : Nat) : Delivery := { DeliveryTag := tag, Body := [0, 0] }

/-- The response of `CreatePayment` to a reference that is already taken. -/
def conflictResponse : Response :=
  { code := StatusConflict, body := .error "Payment with this reference already exists" }

/-- The row the database inserts for a request under environment `e`. -/
def createdRow (e : Env) (req : CreatePaymentRequest) : Payment :=
  { ID := e.freshID, Amount := req.Amount, Currency := req.Currency,
    Reference := req.Reference, Status := StatusPending,
    CreatedAt := e.now, UpdatedAt := e.now }

/-- A well-formed request for a fresh reference. -/
def sampleRequest : CreatePaymentRequest :=
  { Amount := 5, Currency := "USD", Reference := "order-43" }

/-- A second well-formed request with the same reference as `sampleRequest`. -/
def sampleRetry : CreatePaymentRequest :=
  { Amount := 8, Currency := "ETB", Reference := "order-43" }

/-- A well-formed request that reuses the reference of `order42`. -/
def validDuplicate : CreatePaymentRequest :=
  { Amount := 5, Currency := "USD", Reference := "order-42" }

/-- A request that reuses the reference of `order42` and names a currency
outside the enumerated set. -/
def invalidDuplicate : CreatePaymentRequest :=
  { Amount := 5, Currency := "EUR", Reference := "order-42" }

/-- An environment sequence in which the commit fails on the first two calls
and everything succeeds from the third call on; the clock reads `20 + k` on
call `k`. -/
def flakyEnv (k : Nat) : Env :=
  if k < 2 then { Env.healthy (20 + k) 0 with commitFails := true } else Env.healthy (20 + k) 0

/-- An environment sequence in which everything succeeds; the clock reads
`20 + k` on call `k`. -/
def healthyEnv (k : Nat) : Env := Env.healthy (20 + k) 0

/-! ## Facts about the table -/

theorem setStatus_ID (status : String) (id now : Nat) (p : Payment) :
    (setStatus status id now p).ID = p.ID := by
  unfold setStatus
  split <;> rfl

theorem stored_map_setStatus (status : String) (id now id' : Nat) (s : Store) :
    stored (s.map (setStatus status id now)) id' =
      (stored s id').map (setStatus status id now) := by
  induction s with
  | nil => rfl
  | cons p t ih =>
    unfold stored at ih ⊢
    simp only [List.map_cons, List.find?_cons, setStatus_ID]
    cases hp : (p.ID == id')
    · simpa using ih
    · simp

theorem stored_ID {s : Store} {id : Nat} {p : Payment} (h : stored s id = some p) :
    p.ID = id := by
  unfold stored at h
  have := List.find?_some h
  simpa using this

theorem stored_eq_none_iff (s : Store) (id : Nat) :
    stored s id = none ↔ ∀ p ∈ s, p.ID ≠ id := by
  unfold stored
  simp [List.find?_eq_none]

theorem UpdatePaymentStatus_eq (e : Env) (s : Store) (status : String) (id : Nat)
    (h : e.updateFails = false) :
    Queries.UpdatePaymentStatus e s status id = .ok (s.map (setStatus status id e.now)) := by
  unfold Queries.UpdatePaymentStatus
  simp only [h, Bool.false_eq_true, if_false]

/-! ## Facts about `ProcessPaymentIdempotent` -/

namespace PaymentRepository

theorem ProcessPaymentIdempotent_terminal (e : Env) (s : Store) (id : Nat) (p : Payment)
    (hb : e.beginFails = false) (hr : e.readFails = false)
    (hp : stored s id = some p) (hs : p.Status ≠ StatusPending) :
    ProcessPaymentIdempotent e s id = (s, .ok p) := by
  unfold stored at hp
  simp [ProcessPaymentIdempotent, Queries.ProcessPaymentIdempotent, hb, hr, hp, hs]

theorem ProcessPaymentIdempotent_pending (e : Env) (s : Store) (id : Nat) (p : Payment)
    (he : e.txFails = false)
    (hp : stored s id = some p) (hs : p.Status = StatusPending) :
    ProcessPaymentIdempotent e s id =
      (s.map (setStatus StatusSuccess id e.now), .ok { p with Status := StatusSuccess }) := by
  unfold Env.txFails at he
  simp only [Bool.or_eq_false_iff] at he
  obtain ⟨⟨⟨hb, hr⟩, hu⟩, hc⟩ := he
  unfold stored at hp
  simp [ProcessPaymentIdempotent, Queries.ProcessPaymentIdempotent, hb, hr, hp, hs, hc,
    UpdatePaymentStatus_eq e s StatusSuccess id hu]

theorem ProcessPaymentIdempotent_pending_fails (e : Env) (s : Store) (id : Nat) (p : Payment)
    (he : e.txFails = true)
    (hp : stored s id = some p) (hs : p.Status = StatusPending) :
    (ProcessPaymentIdempotent e s id).1 = s ∧
      ∃ err, (ProcessPaymentIdempotent e s id).2 = .error err := by
  unfold stored at hp
  unfold Env.txFails at he
  cases hb : e.beginFails
  · cases hr : e.readFails
    · cases hu : e.updateFails
      · cases hc : e.commitFails
        · simp [hb, hr, hu, hc] at he
        · simp [ProcessPaymentIdempotent, Queries.ProcessPaymentIdempotent, hb, hr, hp, hs, hc,
            UpdatePaymentStatus_eq e s StatusSuccess id hu]
      · simp [ProcessPaymentIdempotent, Queries.ProcessPaymentIdempotent,
          Queries.UpdatePaymentStatus, hb, hr, hp, hs, hu]
    · simp [ProcessPaymentIdempotent, Queries.ProcessPaymentIdempotent, hb, hr]
  · simp [ProcessPaymentIdempotent, hb]

theorem ProcessPaymentIdempotent_notFound_iff (e : Env) (s : Store) (id : Nat) :
    (ProcessPaymentIdempotent e s id).2 = .error .paymentNotFound ↔
      (e.beginFails = false ∧ e.readFails = false ∧ ∀ p ∈ s, p.ID ≠ id) := by
  rw [← stored_eq_none_iff]
  unfold stored
  cases hb : e.beginFails <;> cases hr : e.readFails <;>
    cases hf : s.find? (fun p => p.ID == id) <;>
    simp [ProcessPaymentIdempotent, Queries.ProcessPaymentIdempotent,
      Queries.UpdatePaymentStatus, hb, hr, hf]
  all_goals (repeat' split) <;> simp

/-- A failed call leaves the table as it was. -/
theorem ProcessPaymentIdempotent_error_store (e : Env) (s : Store) (id : Nat) (err : RepoError)
    (h : (ProcessPaymentIdempotent e s id).2 = .error err) :
    (ProcessPaymentIdempotent e s id).1 = s := by
  revert h
  cases hb : e.beginFails <;> cases hr : e.readFails <;>
    cases hf : s.find? (fun p => p.ID == id) <;>
    simp [ProcessPaymentIdempotent, Queries.ProcessPaymentIdempotent,
      Queries.UpdatePaymentStatus, hb, hr, hf]
  all_goals (repeat' split) <;> simp

end PaymentRepository

end Tpay

namespace Tpay

open PaymentRepository

/-! ## Settlement of a single record -/

/-- C2: when the transaction begins and the read succeeds, settling an
identifier whose stored record has any status other than `PENDING` returns no
error, leaves the table exactly as it was and returns exactly the stored
record, whatever the update and commit operations would have done. -/
theorem terminal_settle_is_noop (e : Env) (s : Store) (id : Nat) (p : Payment)
    (hb : e.beginFails = false) (hr : e.readFails = false)
    (hp : stored s id = some p) (hs : p.Status ≠ StatusPending) :
    (ProcessPaymentIdempotent e s id).2 = .ok p ∧
      (ProcessPaymentIdempotent e s id).1 = s := by
  rw [ProcessPaymentIdempotent_terminal e s id p hb hr hp hs]
  exact ⟨rfl, rfl⟩

/-- Witness of C2 on the sample table, for the `SUCCESS` record, under an
environment whose update and commit would fail. -/
theorem terminal_settle_is_noop_witness :
    (ProcessPaymentIdempotent { Env.healthy 20 0 with updateFails := true, commitFails := true }
        sampleStore 2).2 = .ok order7 ∧
      (ProcessPaymentIdempotent { Env.healthy 20 0 with updateFails := true, commitFails := true }
        sampleStore 2).1 = sampleStore :=
  terminal_settle_is_noop _ sampleStore 2 order7 (by decide) (by decide) (by decide) (by decide)

/-- C3: when every store operation succeeds, settling an identifier whose
stored record is `PENDING` commits a table in which that record has status
`SUCCESS` (and the clock as last-update timestamp, every other field and
every other record as before), and returns a payment with status `SUCCESS`
whose identifier, amount, currency, reference and creation timestamp are
those of the stored record. -/
theorem pending_settle_writes_success (e : Env) (s : Store) (id : Nat) (p : Payment)
    (he : e.txFails = false) (hp : stored s id = some p) (hs : p.Status = StatusPending) :
    (∃ r, (ProcessPaymentIdempotent e s id).2 = .ok r ∧ r.Status = StatusSuccess ∧
        r.ID = p.ID ∧ r.Amount = p.Amount ∧ r.Currency = p.Currency ∧
        r.Reference = p.Reference ∧ r.CreatedAt = p.CreatedAt) ∧
      stored (ProcessPaymentIdempotent e s id).1 id =
        some { p with Status := StatusSuccess, UpdatedAt := e.now } ∧
      (∀ id', id' ≠ id →
        stored (ProcessPaymentIdempotent e s id).1 id' = stored s id') ∧
      StatusSuccess ≠ StatusFailed ∧ StatusSuccess ≠ StatusPending := by
  rw [ProcessPaymentIdempotent_pending e s id p he hp hs]
  have hid := stored_ID hp
  refine ⟨⟨_, rfl, rfl, rfl, rfl, rfl, rfl, rfl⟩, ?_, ?_, by decide, by decide⟩
  · simp only [stored_map_setStatus, hp, Option.map_some', setStatus, hid, beq_self_eq_true,
      if_true]
  · intro id' hne
    simp only [stored_map_setStatus]
    cases hq : stored s id' with
    | none => rfl
    | some q =>
      have hqid := stored_ID hq
      have : (q.ID == id) = false := by
        rw [hqid]
        exact beq_false_of_ne hne
      simp [setStatus, this]

/-- Witness of C3 on the sample table. -/
theorem pending_settle_writes_success_witness :
    (∃ r, (ProcessPaymentIdempotent (Env.healthy 20 0) sampleStore 1).2 = .ok r ∧
        r.Status = StatusSuccess ∧
        r.ID = order42.ID ∧ r.Amount = order42.Amount ∧ r.Currency = order42.Currency ∧
        r.Reference = order42.Reference ∧ r.CreatedAt = order42.CreatedAt) ∧
      stored (ProcessPaymentIdempotent (Env.healthy 20 0) sampleStore 1).1 1 =
        some { order42 with Status := StatusSuccess, UpdatedAt := 20 } ∧
      (∀ id', id' ≠ 1 →
        stored (ProcessPaymentIdempotent (Env.healthy 20 0) sampleStore 1).1 id' =
          stored sampleStore id') ∧
      StatusSuccess ≠ StatusFailed ∧ StatusSuccess ≠ StatusPending :=
  pending_settle_writes_success (Env.healthy 20 0) sampleStore 1 order42
    (by decide) (by decide) (by decide)

/-- C4: `ProcessPaymentIdempotent` fails with "payment not found" exactly when
the transaction begins, the read succeeds and the table holds no record with
the identifier, and then the table is left as it was; `GetPaymentByID` and
`GetPaymentByReference` fail with the same error exactly when the read
succeeds and no record has the looked-up key. -/
theorem not_found_iff_absent (e : Env) (s : Store) (id : Nat) (reference : String) :
    ((ProcessPaymentIdempotent e s id).2 = .error .paymentNotFound ↔
        (e.beginFails = false ∧ e.readFails = false ∧ ∀ p ∈ s, p.ID ≠ id)) ∧
      ((ProcessPaymentIdempotent e s id).2 = .error .paymentNotFound →
        (ProcessPaymentIdempotent e s id).1 = s) ∧
      (GetPaymentByID e s id = .error .paymentNotFound ↔
        (e.readFails = false ∧ ∀ p ∈ s, p.ID ≠ id)) ∧
      (GetPaymentByReference e s reference = .error .paymentNotFound ↔
        (e.readFails = false ∧ ∀ p ∈ s, p.Reference ≠ reference)) := by
  refine ⟨?_, ?_, ?_, ?_⟩
  · exact ProcessPaymentIdempotent_notFound_iff e s id
  · exact ProcessPaymentIdempotent_error_store e s id _
  · rw [← stored_eq_none_iff]
    unfold stored
    cases hr : e.readFails <;> cases hf : s.find? (fun p => p.ID == id) <;>
      simp [GetPaymentByID, Queries.GetPaymentByID, hr, hf]
  · have hnone : s.find? (fun p => p.Reference == reference) = none ↔
        ∀ p ∈ s, p.Reference ≠ reference := by
      simp [List.find?_eq_none]
    rw [← hnone]
    cases hr : e.readFails <;> cases hf : s.find? (fun p => p.Reference == reference) <;>
      simp [GetPaymentByReference, Queries.GetPaymentByReference, hr, hf]

end Tpay

namespace Tpay

/-! ## The consumer loop -/

namespace Client

theorem ConsumePaymentProcessing_append {σ ε : Type}
    (unmarshal : List Nat → Option ProcessPaymentMessage)
    (handler : σ → ProcessPaymentMessage → σ × Option ε) (st : σ) (xs ys : List Delivery) :
    ConsumePaymentProcessing unmarshal handler st (xs ++ ys) =
      ((ConsumePaymentProcessing unmarshal handler
          (ConsumePaymentProcessing unmarshal handler st xs).1 ys).1,
        (ConsumePaymentProcessing unmarshal handler st xs).2 ++
          (ConsumePaymentProcessing unmarshal handler
            (ConsumePaymentProcessing unmarshal handler st xs).1 ys).2) := by
  induction xs generalizing st with
  | nil => simp [ConsumePaymentProcessing]
  | cons x xs ih =>
    simp only [List.cons_append, ConsumePaymentProcessing, List.append_eq, ih,
      List.append_assoc]

theorem ConsumePaymentProcessing_middle {σ ε : Type}
    (unmarshal : List Nat → Option ProcessPaymentMessage)
    (handler : σ → ProcessPaymentMessage → σ × Option ε) (st : σ)
    (pre post : List Delivery) (d : Delivery) :
    ConsumePaymentProcessing unmarshal handler st (pre ++ d :: post) =
      ((ConsumePaymentProcessing unmarshal handler
          (consumeDelivery unmarshal handler
            (ConsumePaymentProcessing unmarshal handler st pre).1 d).1 post).1,
        (ConsumePaymentProcessing unmarshal handler st pre).2 ++
          ((consumeDelivery unmarshal handler
            (ConsumePaymentProcessing unmarshal handler st pre).1 d).2 ++
          (ConsumePaymentProcessing unmarshal handler
            (consumeDelivery unmarshal handler
              (ConsumePaymentProcessing unmarshal handler st pre).1 d).1 post).2)) := by
  rw [ConsumePaymentProcessing_append]
  simp only [ConsumePaymentProcessing]

end Client

open Client

/-- C5: a delivery whose body deserializes, wherever it stands in the stream,
makes the loop call the handler exactly once (on the state left by the
deliveries before it) and then issue exactly one acknowledgment action for
its tag: `Ack` when the handler returned no error, and, after the five second
sleep, `Nack` with requeue set when it returned an error; the loop then goes
on with the rest of the stream from the state the handler left. -/
theorem parsed_delivery_one_call_one_ack {σ ε : Type}
    (unmarshal : List Nat → Option ProcessPaymentMessage)
    (handler : σ → ProcessPaymentMessage → σ × Option ε) (st : σ)
    (pre post : List Delivery) (d : Delivery) (message : ProcessPaymentMessage)
    (hm : unmarshal d.Body = some message) :
    ConsumePaymentProcessing unmarshal handler st (pre ++ d :: post) =
      ((ConsumePaymentProcessing unmarshal handler
          (handler (ConsumePaymentProcessing unmarshal handler st pre).1 message).1 post).1,
        (ConsumePaymentProcessing unmarshal handler st pre).2 ++
          ((if (handler (ConsumePaymentProcessing unmarshal handler st pre).1 message).2.isSome
            then [Event.handler message, Event.Sleep 5, Event.Nack d.DeliveryTag false true]
            else [Event.handler message, Event.Ack d.DeliveryTag false]) ++
          (ConsumePaymentProcessing unmarshal handler
            (handler (ConsumePaymentProcessing unmarshal handler st pre).1 message).1
              post).2)) := by
  rw [ConsumePaymentProcessing_middle]
  generalize (ConsumePaymentProcessing unmarshal handler st pre).1 = st1
  unfold consumeDelivery
  rw [hm]
  rcases hh : handler st1 message with ⟨st2, _ | err⟩ <;> simp [hh]

/-- C6: a delivery whose body does not deserialize, wherever it stands in the
stream, never reaches the handler: the loop issues `Nack` with requeue not
set for its tag, and goes on with the rest of the stream from the state the
deliveries before it left. -/
theorem malformed_delivery_discarded {σ ε : Type}
    (unmarshal : List Nat → Option ProcessPaymentMessage)
    (handler : σ → ProcessPaymentMessage → σ × Option ε) (st : σ)
    (pre post : List Delivery) (d : Delivery)
    (hm : unmarshal d.Body = none) :
    ConsumePaymentProcessing unmarshal handler st (pre ++ d :: post) =
      ((ConsumePaymentProcessing unmarshal handler
          (ConsumePaymentProcessing unmarshal handler st pre).1 post).1,
        (ConsumePaymentProcessing unmarshal handler st pre).2 ++
          ([Event.Nack d.DeliveryTag false false] ++
          (ConsumePaymentProcessing unmarshal handler
            (ConsumePaymentProcessing unmarshal handler st pre).1 post).2)) := by
  rw [ConsumePaymentProcessing_middle]
  unfold consumeDelivery
  rw [hm]


/-- Witness of C5 and of the loop going on: on the sample table with the
commit failing on the first two calls, the instruction for the pending
payment 1 is requeued, the instruction for the settled payment 2 is
acknowledged after one handler call, and the loop goes on to the next
delivery (for payment 9, which has no record, and is requeued). -/
theorem parsed_delivery_one_call_one_ack_witness :
    sampleUnmarshal (deliveryFor2 12).Body = some { PaymentID := 2 } ∧
      ConsumePaymentProcessing sampleUnmarshal (PaymentWorker.processPayment flakyEnv)
          { store := sampleStore, tick := 0 }
          ([deliveryFor1 11] ++ deliveryFor2 12 :: [deliveryFor9 13]) =
        ({ store := sampleStore, tick := 3 },
          [Event.handler { PaymentID := 1 }, Event.Sleep 5, Event.Nack 11 false true,
           Event.handler { PaymentID := 2 }, Event.Ack 12 false,
           Event.handler { PaymentID := 9 }, Event.Sleep 5, Event.Nack 13 false true]) :=
  ⟨rfl, (parsed_delivery_one_call_one_ack sampleUnmarshal
      (PaymentWorker.processPayment flakyEnv) { store := sampleStore, tick := 0 }
      [deliveryFor1 11] [deliveryFor9 13] (deliveryFor2 12) { PaymentID := 2 } rfl).trans
    (by decide)⟩

/-- Witness of C6: a malformed delivery between two instructions for the
settled payment 2 is discarded without requeue and without a handler call,
and the delivery after it is processed. -/
theorem malformed_delivery_discarded_witness :
    sampleUnmarshal (malformedDelivery 22).Body = none ∧
      ConsumePaymentProcessing sampleUnmarshal (PaymentWorker.processPayment healthyEnv)
          { store := sampleStore, tick := 0 }
          ([deliveryFor2 21] ++ malformedDelivery 22 :: [deliveryFor2 23]) =
        ({ store := sampleStore, tick := 2 },
          [Event.handler { PaymentID := 2 }, Event.Ack 21 false,
           Event.Nack 22 false false,
           Event.handler { PaymentID := 2 }, Event.Ack 23 false]) :=
  ⟨rfl, (malformed_delivery_discarded sampleUnmarshal
      (PaymentWorker.processPayment healthyEnv) { store := sampleStore, tick := 0 }
      [deliveryFor2 21] [deliveryFor2 23] (malformedDelivery 22) rfl).trans
    (by decide)⟩

end Tpay

namespace Tpay

/-! ## The worker -/

open PaymentRepository Client PaymentWorker

theorem Start_single (unmarshal : List Nat → Option ProcessPaymentMessage) (env : Nat → Env)
    (w : World) (d : Delivery) :
    Start unmarshal env w [d] = consumeDelivery unmarshal (processPayment env) w d := by
  simp [Start, ConsumePaymentProcessing]

theorem processPayment_error (env : Nat → Env) (w : World) (message : ProcessPaymentMessage)
    (err : RepoError)
    (h : (ProcessPaymentIdempotent (env w.tick) w.store message.PaymentID).2 = .error err) :
    processPayment env w message =
      ({ store := (ProcessPaymentIdempotent (env w.tick) w.store message.PaymentID).1,
         tick := w.tick + 1 }, some err) := by
  unfold processPayment
  rcases hr : ProcessPaymentIdempotent (env w.tick) w.store message.PaymentID with ⟨s', r⟩
  rw [hr] at h
  simp only at h
  subst h
  rfl

theorem processPayment_ok (env : Nat → Env) (w : World) (message : ProcessPaymentMessage)
    (p : Payment)
    (h : (ProcessPaymentIdempotent (env w.tick) w.store message.PaymentID).2 = .ok p) :
    processPayment env w message =
      ({ store := (ProcessPaymentIdempotent (env w.tick) w.store message.PaymentID).1,
         tick := w.tick + 1 }, none) := by
  unfold processPayment
  rcases hr : ProcessPaymentIdempotent (env w.tick) w.store message.PaymentID with ⟨s', r⟩
  rw [hr] at h
  simp only at h
  subst h
  rfl

theorem ProcessPaymentIdempotent_ok_of_stored (e : Env) (s : Store) (id : Nat) (p : Payment)
    (he : e.txFails = false) (hp : stored s id = some p) :
    ∃ r, (ProcessPaymentIdempotent e s id).2 = .ok r := by
  by_cases hs : p.Status = StatusPending
  · rw [ProcessPaymentIdempotent_pending e s id p he hp hs]
    exact ⟨_, rfl⟩
  · unfold Env.txFails at he
    simp only [Bool.or_eq_false_iff] at he
    rw [ProcessPaymentIdempotent_terminal e s id p he.1.1.1 he.1.1.2 hp hs]
    exact ⟨_, rfl⟩

/-- C7: `processPayment` leaves the table as `ProcessPaymentIdempotent` on
`message.PaymentID` leaves it and returns an error exactly when that call
does, the same one. Hence, for a delivery carrying the message: when the
identifier has a record (pending or terminal) and the store operations
succeed, the loop acknowledges it; whenever the settle call fails, the loop
negatively acknowledges it with requeue set; and an identifier with no record
(store reachable) is such a failure, with "payment not found". -/
theorem worker_propagates_settle_result
    (unmarshal : List Nat → Option ProcessPaymentMessage) (env : Nat → Env) (w : World)
    (d : Delivery) (message : ProcessPaymentMessage)
    (hm : unmarshal d.Body = some message) :
    (processPayment env w message).1.store =
        (ProcessPaymentIdempotent (env w.tick) w.store message.PaymentID).1 ∧
      (∀ err, (processPayment env w message).2 = some err ↔
        (ProcessPaymentIdempotent (env w.tick) w.store message.PaymentID).2 = .error err) ∧
      ((processPayment env w message).2 = none ↔
        ∃ p, (ProcessPaymentIdempotent (env w.tick) w.store message.PaymentID).2 = .ok p) ∧
      (∀ p, stored w.store message.PaymentID = some p → (env w.tick).txFails = false →
        (Start unmarshal env w [d]).2 =
          [Event.handler message, Event.Ack d.DeliveryTag false]) ∧
      (∀ err,
        (ProcessPaymentIdempotent (env w.tick) w.store message.PaymentID).2 = .error err →
        (Start unmarshal env w [d]).2 =
          [Event.handler message, Event.Sleep 5, Event.Nack d.DeliveryTag false true]) ∧
      ((∀ p ∈ w.store, p.ID ≠ message.PaymentID) →
        (env w.tick).beginFails = false → (env w.tick).readFails = false →
        (processPayment env w message).2 = some RepoError.paymentNotFound ∧
        (Start unmarshal env w [d]).2 =
          [Event.handler message, Event.Sleep 5, Event.Nack d.DeliveryTag false true]) := by
  have hnack : ∀ err,
      (ProcessPaymentIdempotent (env w.tick) w.store message.PaymentID).2 = .error err →
      (Start unmarshal env w [d]).2 =
        [Event.handler message, Event.Sleep 5, Event.Nack d.DeliveryTag false true] := by
    intro err herr
    rw [Start_single]
    unfold consumeDelivery
    rw [hm]
    simp only [processPayment_error env w message err herr]
  refine ⟨?_, ?_, ?_, ?_, hnack, ?_⟩
  · unfold processPayment
    rcases ProcessPaymentIdempotent (env w.tick) w.store message.PaymentID with ⟨s', _ | _⟩ <;>
      rfl
  · intro err
    unfold processPayment
    rcases ProcessPaymentIdempotent (env w.tick) w.store message.PaymentID with ⟨s', _ | _⟩ <;>
      simp
  · unfold processPayment
    rcases ProcessPaymentIdempotent (env w.tick) w.store message.PaymentID with ⟨s', _ | _⟩ <;>
      simp
  · intro p hp he
    obtain ⟨r, hr⟩ := ProcessPaymentIdempotent_ok_of_stored _ _ _ p he hp
    rw [Start_single]
    unfold consumeDelivery
    rw [hm]
    simp only [processPayment_ok env w message r hr]
  · intro habs hb hr
    have hnf : (ProcessPaymentIdempotent (env w.tick) w.store message.PaymentID).2 =
        .error .paymentNotFound :=
      (ProcessPaymentIdempotent_notFound_iff (env w.tick) w.store message.PaymentID).2
        ⟨hb, hr, habs⟩
    refine ⟨?_, hnack _ hnf⟩
    rw [processPayment_error env w message _ hnf]


/-- Witness of C7 on the sample table: the instructions for the pending
payment 1 and for the settled payment 2 are acknowledged when the store
works, the instruction for payment 1 is requeued when the commit fails, and
the instruction for payment 9, which has no record, is requeued with
"payment not found". -/
theorem worker_propagates_settle_result_witness :
    (Start sampleUnmarshal healthyEnv { store := sampleStore, tick := 0 } [deliveryFor1 31]).2 =
        [Event.handler { PaymentID := 1 }, Event.Ack 31 false] ∧
      (Start sampleUnmarshal healthyEnv { store := sampleStore, tick := 0 } [deliveryFor2 32]).2 =
        [Event.handler { PaymentID := 2 }, Event.Ack 32 false] ∧
      (Start sampleUnmarshal flakyEnv { store := sampleStore, tick := 0 } [deliveryFor1 33]).2 =
        [Event.handler { PaymentID := 1 }, Event.Sleep 5, Event.Nack 33 false true] ∧
      ((processPayment healthyEnv { store := sampleStore, tick := 0 } { PaymentID := 9 }).2 =
          some RepoError.paymentNotFound ∧
        (Start sampleUnmarshal healthyEnv { store := sampleStore, tick := 0 }
            [deliveryFor9 34]).2 =
          [Event.handler { PaymentID := 9 }, Event.Sleep 5, Event.Nack 34 false true]) :=
  ⟨(worker_propagates_settle_result sampleUnmarshal healthyEnv
      { store := sampleStore, tick := 0 } (deliveryFor1 31) { PaymentID := 1 } rfl).2.2.2.1
      order42 (by decide) (by decide),
    (worker_propagates_settle_result sampleUnmarshal healthyEnv
      { store := sampleStore, tick := 0 } (deliveryFor2 32) { PaymentID := 2 } rfl).2.2.2.1
      order7 (by decide) (by decide),
    (worker_propagates_settle_result sampleUnmarshal flakyEnv
      { store := sampleStore, tick := 0 } (deliveryFor1 33) { PaymentID := 1 } rfl).2.2.2.2.1
      (RepoError.failedToCommitTransaction SqlError.driver) (by decide),
    (worker_propagates_settle_result sampleUnmarshal healthyEnv
      { store := sampleStore, tick := 0 } (deliveryFor9 34) { PaymentID := 9 } rfl).2.2.2.2.2
      (by decide) (by decide) (by decide)⟩

end Tpay

namespace Tpay

/-! ## Redelivery -/

open PaymentRepository Client PaymentWorker

/-- While the record is pending and the unit of work keeps failing, every
delivery of the instruction is answered by a requeueing `Nack` and the table
stays as it was. -/
theorem Start_failing_run (unmarshal : List Nat → Option ProcessPaymentMessage)
    (env : Nat → Env) (s : Store) (p : Payment) (message : ProcessPaymentMessage)
    (hp : stored s message.PaymentID = some p) (hs : p.Status = StatusPending)
    (pre : List Delivery) :
    ∀ t0 : Nat,
      (∀ x ∈ pre, unmarshal x.Body = some message) →
      (∀ i, i < pre.length → (env (t0 + i)).txFails = true) →
      Start unmarshal env { store := s, tick := t0 } pre =
        ({ store := s, tick := t0 + pre.length },
          pre.flatMap (fun x =>
            [Event.handler message, Event.Sleep 5, Event.Nack x.DeliveryTag false true])) := by
  induction pre with
  | nil => intro t0 _ _; rfl
  | cons x xs ih =>
    intro t0 hdec hfail
    have hx : unmarshal x.Body = some message := hdec x (List.mem_cons_self _ _)
    have h0 : (env t0).txFails = true := by simpa using hfail 0 (by simp)
    obtain ⟨hst, err, herr⟩ :=
      ProcessPaymentIdempotent_pending_fails (env t0) s message.PaymentID p h0 hp hs
    have hstep : consumeDelivery unmarshal (processPayment env) { store := s, tick := t0 } x =
        ({ store := s, tick := t0 + 1 },
          [Event.handler message, Event.Sleep 5, Event.Nack x.DeliveryTag false true]) := by
      unfold consumeDelivery
      rw [hx]
      simp only [processPayment_error env { store := s, tick := t0 } message err herr, hst]
    have hrest := ih (t0 + 1) (fun y hy => hdec y (List.mem_cons_of_mem _ hy))
      (fun i hi => by
        have := hfail (i + 1) (by simpa using hi)
        simpa [Nat.add_assoc, Nat.add_comm 1 i] using this)
    unfold Start at hrest ⊢
    simp only [ConsumePaymentProcessing, hstep, hrest, List.flatMap_cons, List.length_cons]
    simp [Nat.add_assoc, Nat.add_comm 1]

/-- C9: the same instruction is delivered `K + 1` times (`pre` holds the first
`K` deliveries, `d` is the last) for a pending payment; the unit of work fails
at begin, read, update or commit on each of the first `K` calls and every
operation succeeds on the last. Then after any number `j ≤ K` of deliveries
the table is still the initial one (the record is still pending) and each of
them was negatively acknowledged with requeue set; the last delivery is
acknowledged; and the record ends with status `SUCCESS`, written by that last
call only. -/
theorem redelivery_converges (unmarshal : List Nat → Option ProcessPaymentMessage)
    (env : Nat → Env) (s : Store) (t0 : Nat) (p : Payment) (message : ProcessPaymentMessage)
    (pre : List Delivery) (d : Delivery)
    (hp : stored s message.PaymentID = some p) (hs : p.Status = StatusPending)
    (hdec : ∀ x ∈ pre ++ [d], unmarshal x.Body = some message)
    (hfail : ∀ i, i < pre.length → (env (t0 + i)).txFails = true)
    (hok : (env (t0 + pre.length)).txFails = false) :
    (∀ j, j ≤ pre.length →
        Start unmarshal env { store := s, tick := t0 } (pre.take j) =
          ({ store := s, tick := t0 + j },
            (pre.take j).flatMap (fun x =>
              [Event.handler message, Event.Sleep 5, Event.Nack x.DeliveryTag false true]))) ∧
      (Start unmarshal env { store := s, tick := t0 } (pre ++ [d])).2 =
        pre.flatMap (fun x =>
            [Event.handler message, Event.Sleep 5, Event.Nack x.DeliveryTag false true]) ++
          [Event.handler message, Event.Ack d.DeliveryTag false] ∧
      stored (Start unmarshal env { store := s, tick := t0 } (pre ++ [d])).1.store
          message.PaymentID =
        some { p with Status := StatusSuccess, UpdatedAt := (env (t0 + pre.length)).now } := by
  have hd : unmarshal d.Body = some message := hdec d (by simp)
  have hpre : ∀ x ∈ pre, unmarshal x.Body = some message :=
    fun x hx => hdec x (List.mem_append_left _ hx)
  have hall := Start_failing_run unmarshal env s p message hp hs pre t0 hpre hfail
  have hlast := ProcessPaymentIdempotent_pending (env (t0 + pre.length)) s message.PaymentID p
    hok hp hs
  have hstep : consumeDelivery unmarshal (processPayment env)
      { store := s, tick := t0 + pre.length } d =
        ({ store := s.map (setStatus StatusSuccess message.PaymentID (env (t0 + pre.length)).now),
           tick := t0 + pre.length + 1 },
          [Event.handler message, Event.Ack d.DeliveryTag false]) := by
    unfold consumeDelivery
    rw [hd]
    have hres : (ProcessPaymentIdempotent (env (t0 + pre.length)) s message.PaymentID).2 =
        .ok { p with Status := StatusSuccess } := by rw [hlast]
    simp only [processPayment_ok env { store := s, tick := t0 + pre.length } message _ hres,
      hlast]
  have hrun : Start unmarshal env { store := s, tick := t0 } (pre ++ [d]) =
      ({ store := s.map (setStatus StatusSuccess message.PaymentID (env (t0 + pre.length)).now),
         tick := t0 + pre.length + 1 },
        pre.flatMap (fun x =>
            [Event.handler message, Event.Sleep 5, Event.Nack x.DeliveryTag false true]) ++
          [Event.handler message, Event.Ack d.DeliveryTag false]) := by
    unfold Start at hall ⊢
    rw [ConsumePaymentProcessing_append, hall]
    simp only [ConsumePaymentProcessing, hstep, List.append_nil]
  refine ⟨?_, ?_, ?_⟩
  · intro j hj
    have := Start_failing_run unmarshal env s p message hp hs (pre.take j) t0
      (fun x hx => hpre x (List.mem_of_mem_take hx))
      (fun i hi => hfail i (by
        have : i < min j pre.length := by simpa using hi
        omega))
    rw [this]
    simp [Nat.min_eq_left hj]
  · rw [hrun]
  · rw [hrun]
    simp only [stored_map_setStatus, hp, Option.map_some', setStatus, stored_ID hp,
      beq_self_eq_true, if_true]


/-- Witness of C9 with `K = 2`: the commit fails on the first two deliveries
of the instruction for `order42` and succeeds on the third. -/
theorem redelivery_converges_witness :
    (Start sampleUnmarshal flakyEnv { store := sampleStore, tick := 0 }
          ([deliveryFor1 41, deliveryFor1 42] ++ [deliveryFor1 43])).2 =
        [deliveryFor1 41, deliveryFor1 42].flatMap (fun x =>
            [Event.handler { PaymentID := 1 }, Event.Sleep 5,
              Event.Nack x.DeliveryTag false true]) ++
          [Event.handler { PaymentID := 1 }, Event.Ack (deliveryFor1 43).DeliveryTag false] ∧
      stored (Start sampleUnmarshal flakyEnv { store := sampleStore, tick := 0 }
          ([deliveryFor1 41, deliveryFor1 42] ++ [deliveryFor1 43])).1.store
          (ProcessPaymentMessage.mk 1).PaymentID =
        some { order42 with
          Status := StatusSuccess,
          UpdatedAt := (flakyEnv (0 + [deliveryFor1 41, deliveryFor1 42].length)).now } :=
  (redelivery_converges sampleUnmarshal flakyEnv sampleStore 0 order42 { PaymentID := 1 }
    [deliveryFor1 41, deliveryFor1 42] (deliveryFor1 43)
    (by decide) (by decide) (by decide) (by decide) (by decide)).2

end Tpay

namespace Tpay

/-! ## Creation -/

open PaymentRepository

namespace PaymentHandler

theorem CreatePayment_conflict (e : Env) (s : Store) (q : List ProcessPaymentMessage)
    (req : CreatePaymentRequest) (hv : validate req = true) (hr : e.readFails = false)
    (hex : ∃ p ∈ s, p.Reference = req.Reference) :
    CreatePayment e s q (some req) = (s, q, conflictResponse) := by
  obtain ⟨p, hp, href⟩ := hex
  have hfind : ∃ p', s.find? (fun p => p.Reference == req.Reference) = some p' := by
    cases hf : s.find? (fun p => p.Reference == req.Reference) with
    | some p' => exact ⟨p', rfl⟩
    | none =>
      rw [List.find?_eq_none] at hf
      exact absurd (by simpa using href) (hf p hp)
  obtain ⟨p', hp'⟩ := hfind
  simp [CreatePayment, hv, PaymentRepository.GetPaymentByReference,
    Queries.GetPaymentByReference, hr, hp', conflictResponse]

theorem CreatePayment_created (e : Env) (s : Store) (q : List ProcessPaymentMessage)
    (req : CreatePaymentRequest) (hv : validate req = true) (hr : e.readFails = false)
    (hi : e.insertFails = false) (habs : ∀ p ∈ s, p.Reference ≠ req.Reference)
    (hfresh : ∀ p ∈ s, p.ID ≠ e.freshID) :
    CreatePayment e s q (some req) =
      (s ++ [createdRow e req], (Client.PublishPaymentProcessing e q e.freshID).1,
        { code := StatusCreated,
          body := .created { ID := e.freshID, Status := StatusPending } }) := by
  have hfind : s.find? (fun p => p.Reference == req.Reference) = none := by
    rw [List.find?_eq_none]
    intro p hp
    simpa using habs p hp
  have hany : s.any (fun p => p.ID == e.freshID || p.Reference == req.Reference) = false := by
    rw [List.any_eq_false]
    intro p hp
    simp [habs p hp, hfresh p hp]
  simp [CreatePayment, hv, PaymentRepository.GetPaymentByReference,
    Queries.GetPaymentByReference, hr, hfind, PaymentRepository.CreatePayment,
    Queries.CreatePayment, hi, hany, createdRow]

end PaymentHandler

end Tpay

namespace Tpay

open PaymentRepository PaymentHandler

namespace PaymentHandler

theorem validate_iff (req : CreatePaymentRequest) :
    validate req = true ↔
      (0 < req.Amount ∧ (req.Currency = "ETB" ∨ req.Currency = "USD") ∧
        req.Reference ≠ "" ∧ req.Reference.length ≤ 255) := by
  simp [validate, and_assoc]

theorem CreatePayment_unbound (e : Env) (s : Store) (q : List ProcessPaymentMessage) :
    CreatePayment e s q none =
      (s, q, { code := StatusBadRequest, body := .error "Invalid request body" }) := rfl

theorem CreatePayment_invalid (e : Env) (s : Store) (q : List ProcessPaymentMessage)
    (req : CreatePaymentRequest) (hv : validate req = false) :
    CreatePayment e s q (some req) =
      (s, q, { code := StatusBadRequest, body := .error "Validation failed" }) := by
  simp [CreatePayment, hv]

/-- An insert that succeeds was not refused by the driver and met neither the
identifier nor the reference in the table. -/
theorem insert_ok_inv (e : Env) (s : Store) (req : CreatePaymentRequest) (row : Payment)
    (h : (PaymentRepository.CreatePayment e s req).2 = .ok row) :
    e.insertFails = false ∧ ∀ p ∈ s, p.ID ≠ e.freshID := by
  unfold PaymentRepository.CreatePayment Queries.CreatePayment at h
  cases hi : e.insertFails
  · refine ⟨rfl, ?_⟩
    cases hany : s.any (fun p => p.ID == e.freshID || p.Reference == req.Reference)
    · rw [List.any_eq_false] at hany
      intro p hp hid
      exact hany p hp (by simp [hid])
    · simp [hi, hany] at h
  · simp [hi] at h

end PaymentHandler

/-- C8, as the code has it, for every table, queue and environment.
(1) A request that fails binding, or that fails validation (validation passes
exactly when the amount is positive, the currency is ETB or USD and the
reference is non-empty with at most 255 characters), is answered with 400 Bad
Request, table and queue left as they were, whether or not its reference is
taken. (2) A validated request whose reference the table already holds is
answered, when the reference lookup succeeds, with 409 Conflict, table and
queue left as they were. (3) A validated request whose reference the table
does not hold, with the lookup and the insert succeeding, appends exactly its
own `PENDING` row and is answered with 201 Created and status `PENDING`; the
table then holds exactly one record with that reference, and any later
validated request with the same reference (lookup succeeding) is answered
with 409 Conflict without a write. -/
theorem duplicate_reference_conflict (e : Env) (s : Store) (q : List ProcessPaymentMessage) :
    (CreatePayment e s q none =
        (s, q, { code := StatusBadRequest, body := .error "Invalid request body" })) ∧
      (∀ req : CreatePaymentRequest,
        (validate req = true ↔
          (0 < req.Amount ∧ (req.Currency = "ETB" ∨ req.Currency = "USD") ∧
            req.Reference ≠ "" ∧ req.Reference.length ≤ 255)) ∧
        (validate req = false →
          CreatePayment e s q (some req) =
            (s, q, { code := StatusBadRequest, body := .error "Validation failed" }))) ∧
      (∀ req : CreatePaymentRequest, validate req = true → e.readFails = false →
        (∃ p ∈ s, p.Reference = req.Reference) →
        CreatePayment e s q (some req) = (s, q, conflictResponse)) ∧
      (∀ (req : CreatePaymentRequest) (row : Payment), validate req = true →
        e.readFails = false → (∀ p ∈ s, p.Reference ≠ req.Reference) →
        (PaymentRepository.CreatePayment e s req).2 = .ok row →
        row = createdRow e req ∧
        (CreatePayment e s q (some req)).1 = s ++ [createdRow e req] ∧
        (CreatePayment e s q (some req)).2.2 =
          { code := StatusCreated,
            body := .created { ID := e.freshID, Status := StatusPending } } ∧
        ((CreatePayment e s q (some req)).1.countP
          (fun p => p.Reference == req.Reference)) = 1 ∧
        ∀ (e' : Env) (req' : CreatePaymentRequest), validate req' = true →
          e'.readFails = false → req'.Reference = req.Reference →
          CreatePayment e' (CreatePayment e s q (some req)).1
              (CreatePayment e s q (some req)).2.1 (some req') =
            ((CreatePayment e s q (some req)).1, (CreatePayment e s q (some req)).2.1,
              conflictResponse)) := by
  refine ⟨CreatePayment_unbound e s q,
    fun req => ⟨validate_iff req, CreatePayment_invalid e s q req⟩,
    fun req hv hr hex => CreatePayment_conflict e s q req hv hr hex, ?_⟩
  intro req row hv hr habs hins
  obtain ⟨hi, hfresh⟩ := insert_ok_inv e s req row hins
  have hrow : row = createdRow e req := by
    have hany : s.any (fun p => p.ID == e.freshID || p.Reference == req.Reference) = false := by
      rw [List.any_eq_false]
      intro p hp
      simp [habs p hp, hfresh p hp]
    simp [PaymentRepository.CreatePayment, Queries.CreatePayment, hi, hany] at hins
    rw [← hins]
    rfl
  rw [CreatePayment_created e s q req hv hr hi habs hfresh]
  refine ⟨hrow, rfl, rfl, ?_, ?_⟩
  · have h0 : s.countP (fun p => p.Reference == req.Reference) = 0 := by
      rw [List.countP_eq_zero]
      intro p hp
      simpa using habs p hp
    simp [List.countP_append, h0, createdRow]
  · intro e' req' hv' hr' href
    exact CreatePayment_conflict e' _ _ req' hv' hr'
      ⟨createdRow e req, by simp, by rw [href]; rfl⟩

/-- Witness of C8 (amended) on the sample table: a request that did not bind
and `invalidDuplicate` are answered with 400; `validDuplicate` reuses the
reference of `order42` and is refused with 409; `sampleRequest` is created,
and `sampleRetry`, which carries the same reference, is refused after it. -/
theorem duplicate_reference_conflict_witness :
    CreatePayment (Env.healthy 20 7) sampleStore [] none =
        (sampleStore, [], { code := StatusBadRequest, body := .error "Invalid request body" }) ∧
      CreatePayment (Env.healthy 20 7) sampleStore [] (some invalidDuplicate) =
        (sampleStore, [], { code := StatusBadRequest, body := .error "Validation failed" }) ∧
      CreatePayment (Env.healthy 20 7) sampleStore [] (some validDuplicate) =
        (sampleStore, [], conflictResponse) ∧
      (CreatePayment (Env.healthy 20 7) sampleStore [] (some sampleRequest)).1 =
        sampleStore ++ [createdRow (Env.healthy 20 7) sampleRequest] ∧
      (CreatePayment (Env.healthy 20 7) sampleStore [] (some sampleRequest)).2.2 =
        { code := StatusCreated, body := .created { ID := 7, Status := StatusPending } } ∧
      ((CreatePayment (Env.healthy 20 7) sampleStore [] (some sampleRequest)).1.countP
        (fun p => p.Reference == sampleRequest.Reference)) = 1 ∧
      CreatePayment (Env.healthy 21 8)
          (CreatePayment (Env.healthy 20 7) sampleStore [] (some sampleRequest)).1
          (CreatePayment (Env.healthy 20 7) sampleStore [] (some sampleRequest)).2.1
          (some sampleRetry) =
        ((CreatePayment (Env.healthy 20 7) sampleStore [] (some sampleRequest)).1,
          (CreatePayment (Env.healthy 20 7) sampleStore [] (some sampleRequest)).2.1,
          conflictResponse) :=
  have h := duplicate_reference_conflict (Env.healthy 20 7) sampleStore []
  have hc := h.2.2.2 sampleRequest (createdRow (Env.healthy 20 7) sampleRequest)
    (by decide) (by decide) (by decide) (by decide)
  ⟨h.1, (h.2.1 invalidDuplicate).2 (by decide),
    h.2.2.1 validDuplicate (by decide) (by decide) ⟨order42, by decide, by decide⟩,
    hc.2.1, hc.2.2.1, hc.2.2.2.1,
    hc.2.2.2.2 (Env.healthy 21 8) sampleRetry (by decide) (by decide) (by decide)⟩

/-- C8 as stated fails in three ways on the sample table, which holds a
payment with reference `order-42` and none with reference `order-43`.
(1) A request carrying `order-42` with currency `EUR` is answered with 400
"Validation failed", not with 409 Conflict. (2) A well-formed request carrying
`order-42`, handled while the reference lookup fails, goes on to the insert
and is answered with 500, not with 409 Conflict. (3) Of two well-formed
requests carrying `order-43`, the first handled while the insert fails, the
first is answered with 500 and the second with 201 Created: no Conflict among
the two answers. -/
theorem duplicate_reference_not_always_conflict :
    (∃ p ∈ sampleStore, p.Reference = invalidDuplicate.Reference) ∧
      CreatePayment (Env.healthy 20 7) sampleStore [] (some invalidDuplicate) =
        (sampleStore, [], { code := StatusBadRequest, body := .error "Validation failed" }) ∧
      (∃ p ∈ sampleStore, p.Reference = validDuplicate.Reference) ∧
      validate validDuplicate = true ∧
      CreatePayment { Env.healthy 20 7 with readFails := true } sampleStore []
          (some validDuplicate) =
        (sampleStore, [],
          { code := StatusInternalServerError, body := .error "Failed to create payment" }) ∧
      validate sampleRequest = true ∧ validate sampleRetry = true ∧
      sampleRetry.Reference = sampleRequest.Reference ∧
      (∀ p ∈ sampleStore, p.Reference ≠ sampleRequest.Reference) ∧
      CreatePayment { Env.healthy 20 7 with insertFails := true } sampleStore []
          (some sampleRequest) =
        (sampleStore, [],
          { code := StatusInternalServerError, body := .error "Failed to create payment" }) ∧
      CreatePayment (Env.healthy 21 8) sampleStore [] (some sampleRetry) =
        (sampleStore ++ [createdRow (Env.healthy 21 8) sampleRetry], [{ PaymentID := 8 }],
          { code := StatusCreated, body := .created { ID := 8, Status := StatusPending } }) ∧
      StatusBadRequest ≠ StatusConflict ∧ StatusInternalServerError ≠ StatusConflict ∧
      StatusCreated ≠ StatusConflict := by
  refine ⟨⟨order42, by decide, by decide⟩, by decide, ⟨order42, by decide, by decide⟩,
    by decide, by decide, by decide, by decide, by decide, by decide, by decide, by decide,
    by decide, by decide, by decide⟩

end Tpay

namespace Tpay

/-! ## Repeated settlement of one identifier -/

open PaymentRepository

/-- Settling a record that is not pending any number of times, while begin
and read succeed, returns that record each time and leaves the table as it
was. -/
theorem settleTimes_terminal (env : Nat → Env) (id : Nat) (s : Store) (p : Payment)
    (hp : stored s id = some p) (hs : p.Status ≠ StatusPending) (n : Nat) :
    ∀ k : Nat, (∀ j, j < n → (env (k + j)).beginFails = false ∧ (env (k + j)).readFails = false) →
      settleTimes env id n k s = (s, List.replicate n (.ok p)) := by
  induction n with
  | zero => intro k _; rfl
  | succ n ih =>
    intro k hk
    have h0 := hk 0 (Nat.succ_pos n)
    have hrest := ih (k + 1) (fun j hj => by
      have := hk (j + 1) (Nat.succ_lt_succ hj)
      simpa [Nat.add_assoc, Nat.add_comm 1 j] using this)
    simp only [settleTimes, ProcessPaymentIdempotent_terminal (env (k + 0)) s id p h0.1 h0.2 hp hs,
      Nat.add_zero] at hrest ⊢
    simp only [ProcessPaymentIdempotent_terminal (env k) s id p
      (by simpa using h0.1) (by simpa using h0.2) hp hs, hrest, List.replicate_succ]

/-- What `n + 1` settle calls on a pending record do when every store
operation succeeds: the first call writes `SUCCESS` and returns the record it
read with the status replaced; each later call returns the stored record,
whose last-update timestamp is the clock of the first call; the table is
written by the first call only. -/
theorem settleTimes_pending (env : Nat → Env) (id : Nat) (s : Store) (p : Payment) (n k : Nat)
    (hp : stored s id = some p) (hs : p.Status = StatusPending)
    (he : ∀ j, j < n + 1 → (env (k + j)).txFails = false) :
    settleTimes env id (n + 1) k s =
      (s.map (setStatus StatusSuccess id (env k).now),
        .ok { p with Status := StatusSuccess } ::
          List.replicate n
            (.ok { p with Status := StatusSuccess, UpdatedAt := (env k).now })) := by
  have h0 : (env k).txFails = false := by simpa using he 0 (Nat.succ_pos n)
  have hstored : stored (s.map (setStatus StatusSuccess id (env k).now)) id =
      some { p with Status := StatusSuccess, UpdatedAt := (env k).now } := by
    simp only [stored_map_setStatus, hp, Option.map_some', setStatus, stored_ID hp,
      beq_self_eq_true, if_true]
  have hne : StatusSuccess ≠ StatusPending := by decide
  have hterm := settleTimes_terminal env id _ _ hstored hne n (k + 1)
    (fun j hj => by
      have := he (j + 1) (Nat.succ_lt_succ hj)
      unfold Env.txFails at this
      simp only [Bool.or_eq_false_iff] at this
      simpa [Nat.add_assoc, Nat.add_comm 1 j] using this.1.1)
  simp only [settleTimes, ProcessPaymentIdempotent_pending (env k) s id p h0 hp hs, hterm]

/-- C1, the code at a failing input: `order42` is pending with last-update
timestamp 10 and is settled twice, at clock 20 and at clock 21. The first call
writes `SUCCESS` with last-update timestamp 20 but returns a snapshot with
last-update timestamp 10; the second call returns the stored record, with
last-update timestamp 20. The two snapshots differ, and the first is not the
record stored after the first call. -/
theorem first_settle_snapshot_is_stale :
    settleTimes healthyEnv 1 2 0 [order42] =
        ([{ order42 with Status := "SUCCESS", UpdatedAt := 20 }],
          [.ok { order42 with Status := "SUCCESS", UpdatedAt := 10 },
           .ok { order42 with Status := "SUCCESS", UpdatedAt := 20 }]) ∧
      stored (ProcessPaymentIdempotent (healthyEnv 0) [order42] 1).1 1 =
        some { order42 with Status := "SUCCESS", UpdatedAt := 20 } ∧
      (ProcessPaymentIdempotent (healthyEnv 0) [order42] 1).2 ≠
        (ProcessPaymentIdempotent (healthyEnv 1)
          (ProcessPaymentIdempotent (healthyEnv 0) [order42] 1).1 1).2 := by
  refine ⟨by decide, by decide, by decide⟩

end Tpay
